import Mathlib

/-!
Shallow embedding of the MUSIC event-out proxy
(`src/external/nest/nest-2.0.0-rc4/models/music_event_out_proxy.h`) and of the
mock archiving node (`src/test/compare/nest/src/archiving_node.h`).

The header defines `connect_sender` inline (registration of a sender on a
MUSIC channel), the `State_` record (published flag, port width), the
`Variables_` record (index map, permutation index) and an empty-bodied
`update`.  The bodies of `calibrate` (publishing), `handle` (event push) and
the MUSIC-side buffering/redistribution are not part of the sources, so they
are modelled from the specification where needed; such definitions carry a
doc comment starting with "Modelled from the spec:".
-/

namespace nest

/-- Error kinds of the port.  `MUSICPortAlreadyPublished` is the exception
thrown by `connect_sender` in the header; `UnconfiguredPort` is the spec's
error for event delivery to an unpublished port. -/
inductive MusicError where
  | MUSICPortAlreadyPublished : MusicError
  | UnconfiguredPort : MusicError
deriving DecidableEq

/-- Embedding of `struct Parameters_`: the name of the MUSIC port. -/
structure Parameters_ where
  port_name_ : String
deriving DecidableEq

/-- Embedding of `struct State_`: published flag and port width. -/
structure State_ where
  published_ : Bool
  port_width_ : Int
deriving DecidableEq

/-- Embedding of `struct Variables_`: the index map built by
`connect_sender`, and the permutation index (built once at publish time from
the index map; `MUSIC::PermutationIndex` itself is opaque, so it is modelled
as the cached channel list). -/
structure Variables_ where
  index_map_ : List Int
  music_perm_ind_ : Option (List Int)
deriving DecidableEq

/-- Modelled from the spec: a buffered event, keyed by the local channel
position assigned at registration time (§4.2 Event Buffer). -/
structure BufEvent where
  local_pos : Nat
  timestamp : Int
  payload : Nat
deriving DecidableEq

/-- Modelled from the spec: a pending event at the external boundary,
tagged with its global channel number (§3 Data Model). -/
structure PendingEvent where
  channel : Int
  timestamp : Int
  payload : Nat
deriving DecidableEq

/-- Embedding of `class music_event_out_proxy`: parameters, state and
variables of the port, plus the per-tick event buffer (the buffer lives
inside the opaque MUSIC library and is modelled from the spec, §4.2). -/
structure music_event_out_proxy where
  P_ : Parameters_
  S_ : State_
  V_ : Variables_
  buffer_ : List BufEvent
deriving DecidableEq

/-- Modelled from the spec: the configuration surface (§6) sets the port
name and width before publish; the port starts unpublished with an empty
index map, no permutation index and an empty buffer. -/
def mkPort (name : String) (width : Int) : music_event_out_proxy :=
  { P_ := { port_name_ := name }
    S_ := { published_ := false, port_width_ := width }
    V_ := { index_map_ := [], music_perm_ind_ := none }
    buffer_ := [] }

/-- Embedding of `music_event_out_proxy::connect_sender` (header lines
146-160): if the port is not published, append the channel number to the
index map and return the channel number; otherwise the state is left
untouched and `MUSICPortAlreadyPublished` is thrown.  The C++ exception is
modelled by returning the unchanged object together with the error. -/
def connect_sender (p : music_event_out_proxy) (receptor_type : Int) :
    music_event_out_proxy × Except MusicError Int :=
  if !p.S_.published_ then
    ({ p with V_ := { p.V_ with
        index_map_ := p.V_.index_map_ ++ [receptor_type] } },
     Except.ok receptor_type)
  else
    (p, Except.error MusicError.MUSICPortAlreadyPublished)

/-- Modelled from the spec: `publish()` (§4.1; the implementing body,
`calibrate`, is not under the sources).  It transitions the published flag
false→true exactly once, caches the index map as the permutation index, and
a second call fails with `MUSICPortAlreadyPublished` leaving the state
unchanged. -/
def publish (p : music_event_out_proxy) :
    music_event_out_proxy × Except MusicError Unit :=
  if p.S_.published_ then
    (p, Except.error MusicError.MUSICPortAlreadyPublished)
  else
    ({ p with
        S_ := { p.S_ with published_ := true }
        V_ := { p.V_ with music_perm_ind_ := some p.V_.index_map_ } },
     Except.ok ())

/-- Modelled from the spec: `push` (§4.2; the implementing body,
`handle(SpikeEvent&)`, declared at header line 90, is not under the
sources).  Valid only when the port is published; appends the event to the
buffer in call order, otherwise fails with `UnconfiguredPort`. -/
def push (p : music_event_out_proxy) (pos : Nat) (ts : Int) (payload : Nat) :
    music_event_out_proxy × Except MusicError Unit :=
  if p.S_.published_ then
    ({ p with buffer_ := p.buffer_ ++ [⟨pos, ts, payload⟩] }, Except.ok ())
  else
    (p, Except.error MusicError.UnconfiguredPort)

/-- Modelled from the spec: `drain()` (§4.2) atomically removes and returns
all buffered events, leaving the buffer empty. -/
def drain (p : music_event_out_proxy) :
    music_event_out_proxy × List BufEvent :=
  ({ p with buffer_ := [] }, p.buffer_)

/-- Embedding of `music_event_out_proxy::update` (header line 103): the
body is empty, so the port is returned unchanged. -/
def update (p : music_event_out_proxy) (_t : Int) (_from_step _to_step : Int) :
    music_event_out_proxy := p

/-- Modelled from the spec: tagging of locally drained events with their
global channel numbers, resolved through the permutation table (§4.3).
Events whose local position has no assignment are not deliverable. -/
def tagEvents (perm : List Int) (evs : List BufEvent) : List PendingEvent :=
  evs.filterMap fun e =>
    (perm.get? e.local_pos).map fun ch =>
      { channel := ch, timestamp := e.timestamp, payload := e.payload }

/-- Modelled from the spec: `flush` (§4.3) — each process's drained events
are tagged with their global channel numbers via that process's permutation
table, and the boundary observes the union of all processes' tagged
events. -/
def flush (procs : List (List BufEvent × List Int)) : List PendingEvent :=
  (procs.map fun pr => tagEvents pr.2 pr.1).flatten

/-- Operations on a single port, used to describe reachable states. -/
inductive PortOp where
  | register (receptor_type : Int)
  | doPublish
  | doPush (pos : Nat) (ts : Int) (payload : Nat)
  | doDrain
  | doUpdate (t f to_ : Int)
deriving DecidableEq

/-- State effect of one operation (results are discarded; a failing
operation leaves the state unchanged, matching the C++ exception model). -/
def applyOp (p : music_event_out_proxy) : PortOp → music_event_out_proxy
  | PortOp.register rt => (connect_sender p rt).1
  | PortOp.doPublish => (publish p).1
  | PortOp.doPush pos ts pl => (push p pos ts pl).1
  | PortOp.doDrain => (drain p).1
  | PortOp.doUpdate t f to_ => update p t f to_

/-- State after a sequence of operations. -/
def applyOps : music_event_out_proxy → List PortOp → music_event_out_proxy
  | p, [] => p
  | p, op :: ops => applyOps (applyOp p op) ops

/-- Sequencing of `connect_sender` calls, stopping at the first error. -/
def registerAll : music_event_out_proxy → List Int →
    music_event_out_proxy × Except MusicError Unit
  | p, [] => (p, Except.ok ())
  | p, c :: rest =>
    match connect_sender p c with
    | (q, Except.ok _) => registerAll q rest
    | (q, Except.error e) => (q, Except.error e)

/-- Sequencing of `push` calls (state effect only). -/
def pushAll : music_event_out_proxy → List BufEvent → music_event_out_proxy
  | p, [] => p
  | p, e :: rest => pushAll (push p e.local_pos e.timestamp e.payload).1 rest

end nest

namespace nest

/-- Embedding of `class Archiving_Node`
(`src/test/compare/nest/src/archiving_node.h`): the stored last spike time.
The C++ `double_t` is modelled by `Rat`; the node only stores and returns
the value, so no floating-point arithmetic is involved. -/
structure Archiving_Node where
  last_spike_ : Rat
deriving DecidableEq

/-- Embedding of the default constructor `Archiving_Node() :
last_spike_(-1.0)`. -/
def Archiving_Node.new : Archiving_Node := { last_spike_ := -1 }

/-- Embedding of the copy constructor `Archiving_Node(const
Archiving_Node&)`, which copies `last_spike_`. -/
def Archiving_Node.copy (n : Archiving_Node) : Archiving_Node :=
  { last_spike_ := n.last_spike_ }

/-- Embedding of `get_spiketime_ms`. -/
def Archiving_Node.get_spiketime_ms (n : Archiving_Node) : Rat :=
  n.last_spike_

/-- Embedding of `set_spiketime_ms`. -/
def Archiving_Node.set_spiketime_ms (n : Archiving_Node) (st : Rat) :
    Archiving_Node :=
  { n with last_spike_ := st }

end nest

namespace nest

/-- Concrete scenario of spec §8.7, process A: width-4 port, channels 2 then
0 registered, published, one event pushed on the first-registered sender
(local position 0) at tick 10. -/
def scenarioA : music_event_out_proxy :=
  (push (publish (registerAll (mkPort "spikes_out" 4) [2, 0]).1).1 0 10 0).1

/-- Concrete scenario of spec §8.7, process B: width-4 port, channels 1 then
3 registered, published, one event pushed on the second-registered sender
(local position 1) at tick 10. -/
def scenarioB : music_event_out_proxy :=
  (push (publish (registerAll (mkPort "spikes_out" 4) [1, 3]).1).1 1 10 1).1

/-- Boundary result of the collective flush for the §8.7 scenario: both
processes drain their buffers and flush through their permutation tables. -/
def scenarioFlush : List PendingEvent :=
  flush [((drain scenarioA).2, scenarioA.V_.music_perm_ind_.getD []),
         ((drain scenarioB).2, scenarioB.V_.music_perm_ind_.getD [])]

/-- A freshly configured, already published width-4 port, used as a concrete
published state. -/
def pubPort : music_event_out_proxy :=
  (publish (mkPort "spikes_out" 4)).1

/-- A reachable state with more channel assignments than the configured
width: a width-1 port on which two senders registered. -/
def cexPort : music_event_out_proxy :=
  applyOps (mkPort "spikes_out" 1) [PortOp.register 0, PortOp.register 7]

theorem connect_sender_unpublished (p : music_event_out_proxy) (rt : Int)
    (h : p.S_.published_ = false) :
    connect_sender p rt =
      ({ p with V_ := { p.V_ with index_map_ := p.V_.index_map_ ++ [rt] } },
       Except.ok rt) := by
  simp [connect_sender, h]

theorem connect_sender_published (p : music_event_out_proxy) (rt : Int)
    (h : p.S_.published_ = true) :
    connect_sender p rt =
      (p, Except.error MusicError.MUSICPortAlreadyPublished) := by
  simp [connect_sender, h]

theorem applyOp_published (p : music_event_out_proxy) (op : PortOp)
    (h : p.S_.published_ = true) : (applyOp p op).S_.published_ = true := by
  cases op <;>
    simp [applyOp, connect_sender, publish, push, drain, update, h]

theorem applyOp_index_map (p : music_event_out_proxy) (op : PortOp)
    (h : p.S_.published_ = true) :
    (applyOp p op).V_.index_map_ = p.V_.index_map_ := by
  cases op <;>
    simp [applyOp, connect_sender, publish, push, drain, update, h]

theorem registerAll_unpublished (p : music_event_out_proxy) (chans : List Int)
    (h : p.S_.published_ = false) :
    (registerAll p chans).2 = Except.ok () ∧
    (registerAll p chans).1.V_.index_map_ = p.V_.index_map_ ++ chans ∧
    (registerAll p chans).1.S_ = p.S_ ∧
    (registerAll p chans).1.P_ = p.P_ := by
  induction chans generalizing p with
  | nil => simp [registerAll]
  | cons c rest ih =>
    have hc := connect_sender_unpublished p c h
    have ih' := ih
      { p with V_ := { p.V_ with index_map_ := p.V_.index_map_ ++ [c] } } h
    simp only [registerAll, hc]
    exact ⟨ih'.1, by rw [ih'.2.1]; simp, ih'.2.2.1, ih'.2.2.2⟩

theorem pushAll_buffer (p : music_event_out_proxy) (evs : List BufEvent)
    (h : p.S_.published_ = true) :
    (pushAll p evs).buffer_ = p.buffer_ ++ evs ∧
    (pushAll p evs).S_ = p.S_ ∧ (pushAll p evs).V_ = p.V_ := by
  induction evs generalizing p with
  | nil => simp [pushAll]
  | cons e rest ih =>
    have hstep : (push p e.local_pos e.timestamp e.payload).1 =
        { p with buffer_ := p.buffer_ ++ [e] } := by
      simp [push, h]
    have ih' := ih { p with buffer_ := p.buffer_ ++ [e] } h
    simp only [pushAll, hstep]
    exact ⟨by rw [ih'.1]; simp, ih'.2.1, ih'.2.2⟩

end nest

namespace nest

/-- Claim C1: for every port state in which the published flag is true, a
`connect_sender` call fails with the port-already-published error and leaves
the index map unchanged, both in length and in contents. -/
theorem connect_sender_after_publish (p : music_event_out_proxy) (rt : Int)
    (h : p.S_.published_ = true) :
    (connect_sender p rt).2 = Except.error MusicError.MUSICPortAlreadyPublished ∧
    (connect_sender p rt).1.V_.index_map_.length = p.V_.index_map_.length ∧
    (connect_sender p rt).1.V_.index_map_ = p.V_.index_map_ := by
  rw [connect_sender_published p rt h]
  exact ⟨rfl, rfl, rfl⟩

/-- Witness for C1: a concrete published port rejects registration of
channel 5 and keeps its index map. -/
theorem connect_sender_after_publish_witness :
    pubPort.S_.published_ = true ∧
    ((connect_sender pubPort 5).2 =
        Except.error MusicError.MUSICPortAlreadyPublished ∧
     (connect_sender pubPort 5).1.V_.index_map_.length =
        pubPort.V_.index_map_.length ∧
     (connect_sender pubPort 5).1.V_.index_map_ = pubPort.V_.index_map_) :=
  ⟨rfl, connect_sender_after_publish pubPort 5 rfl⟩

/-- Claim C2: every sequence of `connect_sender` calls made strictly before
publish — duplicates included, since no uniqueness check is performed —
succeeds call by call, and the resulting index map is the previous map
extended with exactly the supplied channel numbers in call order. -/
theorem registerAll_before_publish (p : music_event_out_proxy)
    (chans : List Int) (h : p.S_.published_ = false) :
    (registerAll p chans).2 = Except.ok () ∧
    (registerAll p chans).1.V_.index_map_ = p.V_.index_map_ ++ chans :=
  ⟨(registerAll_unpublished p chans h).1,
   (registerAll_unpublished p chans h).2.1⟩

/-- Witness for C2: registering channels 2, 0, 2 (a duplicate among them) on
a fresh port succeeds and yields the index map [2, 0, 2]. -/
theorem registerAll_before_publish_witness :
    (mkPort "spikes_out" 4).S_.published_ = false ∧
    ((registerAll (mkPort "spikes_out" 4) [2, 0, 2]).2 = Except.ok () ∧
     (registerAll (mkPort "spikes_out" 4) [2, 0, 2]).1.V_.index_map_ =
       (mkPort "spikes_out" 4).V_.index_map_ ++ [2, 0, 2]) :=
  ⟨rfl, registerAll_before_publish (mkPort "spikes_out" 4) [2, 0, 2] rfl⟩

/-- Claim C3: the first `publish` call transitions the published flag from
false to true; a second `publish` call fails with the
port-already-published error and leaves the state unchanged; and once true
the flag stays true under every sequence of operations. -/
theorem publish_once (p : music_event_out_proxy) :
    (p.S_.published_ = false →
      (publish p).2 = Except.ok () ∧ (publish p).1.S_.published_ = true) ∧
    (p.S_.published_ = true →
      (publish p).2 = Except.error MusicError.MUSICPortAlreadyPublished ∧
      (publish p).1 = p) ∧
    (∀ ops : List PortOp, p.S_.published_ = true →
      (applyOps p ops).S_.published_ = true) := by
  refine ⟨fun h => ?_, fun h => ?_, fun ops => ?_⟩
  · simp [publish, h]
  · simp [publish, h]
  · induction ops generalizing p with
    | nil => intro h; exact h
    | cons op rest ih =>
      intro h
      exact ih (applyOp p op) (applyOp_published p op h)

/-- Witness for C3: publishing a fresh port succeeds and sets the flag;
republishing the published port fails and leaves it unchanged; the flag is
still true after further operations. -/
theorem publish_once_witness :
    ((publish (mkPort "spikes_out" 4)).2 = Except.ok () ∧
     (publish (mkPort "spikes_out" 4)).1.S_.published_ = true) ∧
    ((publish pubPort).2 =
        Except.error MusicError.MUSICPortAlreadyPublished ∧
     (publish pubPort).1 = pubPort) ∧
    (applyOps pubPort
        [PortOp.register 5, PortOp.doDrain]).S_.published_ = true :=
  ⟨(publish_once (mkPort "spikes_out" 4)).1 rfl,
   (publish_once pubPort).2.1 rfl,
   (publish_once pubPort).2.2 [PortOp.register 5, PortOp.doDrain] rfl⟩

/-- Counterexample for C5: the width bound is not enforced by the code — a
width-1 port on which two senders registered is reachable, and there the
configured width is not greater than or equal to the number of channel
assignments in the index map. -/
theorem width_invariant_cex :
    applyOps (mkPort "spikes_out" 1)
      [PortOp.register 0, PortOp.register 7] = cexPort ∧
    ¬ ((cexPort.V_.index_map_.length : Int) ≤ cexPort.S_.port_width_) :=
  ⟨rfl, by decide⟩

/-- Claim C5 as amended: once published, the index map never changes under
any sequence of operations (the width bound, by contrast, is not enforced —
see the counterexample). -/
theorem index_map_frozen_after_publish (p : music_event_out_proxy)
    (ops : List PortOp) (h : p.S_.published_ = true) :
    (applyOps p ops).V_.index_map_ = p.V_.index_map_ := by
  induction ops generalizing p with
  | nil => rfl
  | cons op rest ih =>
    calc (applyOps (applyOp p op) rest).V_.index_map_
        = (applyOp p op).V_.index_map_ := ih (applyOp p op) (applyOp_published p op h)
      _ = p.V_.index_map_ := applyOp_index_map p op h

/-- Witness for C5 (amended): a concrete published port keeps its index map
across a registration attempt, a republish attempt, a push and a drain. -/
theorem index_map_frozen_after_publish_witness :
    pubPort.S_.published_ = true ∧
    (applyOps pubPort [PortOp.register 9, PortOp.doPublish,
        PortOp.doPush 0 1 2, PortOp.doDrain]).V_.index_map_ =
      pubPort.V_.index_map_ :=
  ⟨rfl, index_map_frozen_after_publish pubPort
    [PortOp.register 9, PortOp.doPublish, PortOp.doPush 0 1 2,
     PortOp.doDrain] rfl⟩

/-- Claim C6: on an unpublished port, `connect_sender` returns the
caller-chosen channel number unchanged on success. -/
theorem connect_sender_returns_channel (p : music_event_out_proxy) (rt : Int)
    (h : p.S_.published_ = false) :
    (connect_sender p rt).2 = Except.ok rt := by
  rw [connect_sender_unpublished p rt h]

/-- Witness for C6: registering channel 5 on a fresh port returns 5. -/
theorem connect_sender_returns_channel_witness :
    (mkPort "spikes_out" 4).S_.published_ = false ∧
    (connect_sender (mkPort "spikes_out" 4) 5).2 = Except.ok 5 :=
  ⟨rfl, connect_sender_returns_channel (mkPort "spikes_out" 4) 5 rfl⟩

/-- Claim C7: `push` fails with the unconfigured-port error whenever the
port is not yet published, and after publish every `push` succeeds and its
event appears in the result of the next `drain`. -/
theorem push_requires_publish (p : music_event_out_proxy) (pos : Nat)
    (ts : Int) (pl : Nat) :
    (p.S_.published_ = false →
      push p pos ts pl = (p, Except.error MusicError.UnconfiguredPort)) ∧
    (p.S_.published_ = true →
      (push p pos ts pl).2 = Except.ok () ∧
      (⟨pos, ts, pl⟩ : BufEvent) ∈ (drain (push p pos ts pl).1).2) := by
  refine ⟨fun h => ?_, fun h => ?_⟩
  · simp [push, h]
  · simp [push, drain, h]

/-- Witness for C7: a fresh port rejects a push; after publishing, the same
push succeeds and is contained in the next drain. -/
theorem push_requires_publish_witness :
    ((mkPort "spikes_out" 4).S_.published_ = false ∧
     push (mkPort "spikes_out" 4) 0 10 0 =
       (mkPort "spikes_out" 4, Except.error MusicError.UnconfiguredPort)) ∧
    (pubPort.S_.published_ = true ∧
     (push pubPort 0 10 0).2 = Except.ok () ∧
     (⟨0, 10, 0⟩ : BufEvent) ∈ (drain (push pubPort 0 10 0).1).2) :=
  ⟨⟨rfl, (push_requires_publish (mkPort "spikes_out" 4) 0 10 0).1 rfl⟩,
   rfl, (push_requires_publish pubPort 0 10 0).2 rfl⟩

/-- Claim C8: the events pushed between two drains are returned by the next
`drain` exactly and in push order, the buffer is left empty, and a further
drain returns nothing, so no event is ever returned by two drains. -/
theorem drain_complete_exclusive (p : music_event_out_proxy)
    (evs : List BufEvent) (h : p.S_.published_ = true) :
    (drain (pushAll (drain p).1 evs)).2 = evs ∧
    (drain (pushAll (drain p).1 evs)).1.buffer_ = [] ∧
    (drain (drain (pushAll (drain p).1 evs)).1).2 = [] := by
  have hp : ((drain p).1).S_.published_ = true := h
  have hb := pushAll_buffer (drain p).1 evs hp
  refine ⟨?_, rfl, rfl⟩
  show (pushAll (drain p).1 evs).buffer_ = evs
  rw [hb.1]
  rfl

/-- Witness for C8: on a concrete published port, pushing two events after a
drain makes the next drain return exactly those two events and leave the
buffer empty, and a second drain returns nothing. -/
theorem drain_complete_exclusive_witness :
    pubPort.S_.published_ = true ∧
    ((drain (pushAll (drain pubPort).1 [⟨0, 1, 2⟩, ⟨1, 3, 4⟩])).2 =
       [⟨0, 1, 2⟩, ⟨1, 3, 4⟩] ∧
     (drain (pushAll (drain pubPort).1 [⟨0, 1, 2⟩, ⟨1, 3, 4⟩])).1.buffer_ = [] ∧
     (drain (drain (pushAll (drain pubPort).1
        [⟨0, 1, 2⟩, ⟨1, 3, 4⟩])).1).2 = []) :=
  ⟨rfl, drain_complete_exclusive pubPort [⟨0, 1, 2⟩, ⟨1, 3, 4⟩] rfl⟩

/-- Claim C9: the per-step `update` operation is a no-op — for every port
state and argument triple, the parameters, state and variables (hence the
index map and permutation table) are unchanged, and so is the whole port. -/
theorem update_is_noop (p : music_event_out_proxy) (t f to_ : Int) :
    (update p t f to_).P_ = p.P_ ∧ (update p t f to_).S_ = p.S_ ∧
    (update p t f to_).V_ = p.V_ ∧ update p t f to_ = p :=
  ⟨rfl, rfl, rfl, rfl⟩

/-- Claim C10: `get_spiketime_ms` after `set_spiketime_ms st` returns `st`,
a freshly constructed archiving node returns -1.0, and copy construction
preserves the stored last-spike time. -/
theorem archiving_node_spiketime (n : Archiving_Node) (st : Rat) :
    (n.set_spiketime_ms st).get_spiketime_ms = st ∧
    Archiving_Node.new.get_spiketime_ms = -1 ∧
    n.copy.get_spiketime_ms = n.get_spiketime_ms :=
  ⟨rfl, rfl, rfl⟩

end nest

namespace nest

/-- Claim C4: the boundary result of `flush` is exactly the union of the
processes' drained events, each tagged with the global channel number
resolved from that process's permutation table; and in the §8.7 scenario
(width 4, process A registers channels 2 and 0, process B registers 1 and
3, one push each at tick 10) the flush yields exactly the two events on
global channels 2 and 3. -/
theorem flush_barrier_symmetry :
    (∀ (procs : List (List BufEvent × List Int)) (e : PendingEvent),
        e ∈ flush procs ↔
          ∃ pr ∈ procs, ∃ b ∈ pr.1,
            pr.2.get? b.local_pos = some e.channel ∧
            e.timestamp = b.timestamp ∧ e.payload = b.payload) ∧
    scenarioFlush =
      [{ channel := 2, timestamp := 10, payload := 0 },
       { channel := 3, timestamp := 10, payload := 1 }] := by
  constructor
  · intro procs e
    constructor
    · intro hmem
      simp only [flush] at hmem
      obtain ⟨l, hl, hel⟩ := List.mem_flatten.mp hmem
      obtain ⟨pr, hpr, rfl⟩ := List.mem_map.mp hl
      obtain ⟨b, hb, hfb⟩ := List.mem_filterMap.mp hel
      obtain ⟨c, hc, he⟩ := Option.map_eq_some'.mp hfb
      subst he
      exact ⟨pr, hpr, b, hb, hc, rfl, rfl⟩
    · rintro ⟨pr, hpr, b, hb, hc, ht, hp2⟩
      simp only [flush]
      apply List.mem_flatten.mpr
      refine ⟨tagEvents pr.2 pr.1, List.mem_map.mpr ⟨pr, hpr, rfl⟩, ?_⟩
      apply List.mem_filterMap.mpr
      refine ⟨b, hb, ?_⟩
      rw [hc, Option.map_some']
      obtain ⟨ch, ts, pl⟩ := e
      simp only [Option.some.injEq, PendingEvent.mk.injEq]
      exact ⟨trivial, ht.symm, hp2.symm⟩
  · rfl

end nest
